import Mathlib

/-!
Verification development for the Blinko Telegram bot
(note-composition session state machine, retrying HTTP clients,
AI client, and tag parsing), shallowly embedded from the Python
sources under `src/`.

Conventions of the embedding:
* Python `str` is Lean `String`; Python `None`-or-string values are
  `Option String` (or `ConfigVal` where a dict value is needed).
* Python string primitives (`split`, `strip`, `replace`, `in`,
  `startswith`, `int(...)`) are re-implemented structurally over
  `List Char` so that every definition evaluates by kernel reduction.
* Async calls to external services are modelled by oracles passed as
  explicit arguments: the oracle gives the outcome of each external
  call, and the embedded function computes the resulting session,
  rendered output, and service-call trace deterministically from it.
* Python exceptions are `Except PyErr _` / explicit error results;
  the surrounding try/except blocks of the source are mirrored by
  matching on those results where the source catches them.
-/

/- ## Python string primitives -/

/-- Python exception values that the embedded code can raise.
Only the exception class and message are modelled. -/
inductive PyErr
  | typeError (msg : String)
  | exc (msg : String)
  deriving DecidableEq

/-- The user-visible text of a Python exception, `str(e)`. -/
def PyErr.msg : PyErr → String
  | .typeError m => m
  | .exc m => m

/-- Split a character list at every occurrence of `sep`
(auxiliary for Python `str.split(sep)` with a one-character
separator; `acc` holds the current piece reversed). -/
def splitCharAux (sep : Char) : List Char → List Char → List (List Char)
  | [], acc => [acc.reverse]
  | c :: cs, acc =>
    if c = sep then acc.reverse :: splitCharAux sep cs []
    else splitCharAux sep cs (c :: acc)

/-- Python `s.split(sep)` for a one-character separator. -/
def pySplitChar (sep : Char) (s : String) : List String :=
  (splitCharAux sep s.data []).map (fun l => ⟨l⟩)

/-- Substring containment over character lists. -/
def listContainsSub (pat : List Char) : List Char → Bool
  | [] => pat.isEmpty
  | c :: cs => pat.isPrefixOf (c :: cs) || listContainsSub pat cs

/-- Python `needle in hay` on strings (substring containment;
`True` for an empty needle). -/
def pyInStr (needle hay : String) : Bool :=
  listContainsSub needle.data hay.data

/-- Python `s.strip()`: remove leading and trailing whitespace. -/
def pyStrip (s : String) : String :=
  ⟨((s.data.dropWhile Char.isWhitespace).reverse.dropWhile Char.isWhitespace).reverse⟩

/-- Python `s.strip('#')`: remove leading and trailing `#` characters. -/
def stripHash (s : String) : String :=
  ⟨((s.data.dropWhile (· = '#')).reverse.dropWhile (· = '#')).reverse⟩

/-- Python `s.startswith(p)`. -/
def pyStartsWith (s p : String) : Bool :=
  p.data.isPrefixOf s.data

/-- Accumulate decimal digits; `none` on the first non-digit
(auxiliary for Python `int(...)`). -/
def digitsToNat (acc : Nat) : List Char → Option Nat
  | [] => some acc
  | c :: cs => if c.isDigit then digitsToNat (acc * 10 + (c.toNat - 48)) cs else none

/-- Python `int(s)` on a string: strip whitespace, optional sign,
then at least one decimal digit; `none` models the `ValueError`
raised on any other input. -/
def pyParseInt (s : String) : Option Int :=
  match (pyStrip s).data with
  | [] => none
  | '-' :: rest =>
    if rest.isEmpty then none else (digitsToNat 0 rest).map (fun n => -(n : Int))
  | '+' :: rest =>
    if rest.isEmpty then none else (digitsToNat 0 rest).map (fun n => (n : Int))
  | l => (digitsToNat 0 l).map (fun n => (n : Int))

/-- Replace every non-overlapping occurrence of `pat` by `rep`,
scanning left to right; `fuel` bounds the recursion and is
instantiated with the input length (each step consumes at least one
character when `pat` is nonempty, the only way the source uses it). -/
def replaceAux (pat rep : List Char) : Nat → List Char → List Char
  | _, [] => []
  | 0, l => l
  | fuel + 1, c :: cs =>
    if !pat.isEmpty && pat.isPrefixOf (c :: cs) then
      rep ++ replaceAux pat rep fuel ((c :: cs).drop pat.length)
    else c :: replaceAux pat rep fuel cs

/-- Python `s.replace(pat, rep)` (all occurrences, left to right,
nonempty `pat`). -/
def pyReplace (s pat rep : String) : String :=
  ⟨replaceAux pat.data rep.data s.data.length s.data⟩

/-- Python `sep.join(pieces)`. -/
def pyJoin (sep : String) : List String → String
  | [] => ""
  | [x] => x
  | x :: xs => x ++ sep ++ pyJoin sep xs

/-- Python `line.split('-', 1)`: the part before the first `-` and
the rest, when a `-` occurs. -/
def splitFirstDash : List Char → Option (List Char × List Char)
  | [] => none
  | c :: cs =>
    if c = '-' then some ([], cs)
    else (splitFirstDash cs).map (fun p => (c :: p.1, p.2))

/-- Python `line.split('-', 1)` as a list of one or two pieces. -/
def pySplit1Dash (line : String) : List String :=
  match splitFirstDash line.data with
  | none => [line]
  | some (a, b) => [⟨a⟩, ⟨b⟩]

/- ## Session model (src/models/session.py) -/

/-- Embedding of `MessageType` (src/models/session.py): the six content kinds. -/
inductive MessageType
  | TEXT
  | IMAGE
  | AUDIO
  | VIDEO
  | URL
  | FILE
  deriving DecidableEq

/-- Embedding of `NoteContent` (src/models/session.py): one collected item.
The `metadata`/`timestamp` fields are never read by the handlers and
are omitted. -/
structure NoteContent where
  type : MessageType
  content : String
  deriving DecidableEq

/-- One entry of `UserSession.files`: the uploaded-file info dict.
Only the `file_url` key is read by `_save_note`. -/
structure FileInfo where
  file_url : String
  deriving DecidableEq

/-- Embedding of `NoteState` (src/models/session.py): the session states.
The state strings of the source become constructors. -/
inductive NoteState
  | INITIAL
  | COLLECTING
  | AWAITING_ACTION
  | SUMMARIZING
  | SELECTING_TAGS
  | PARSING_CONTENT
  deriving DecidableEq

/-- Embedding of `UserSession` (src/models/session.py). -/
structure UserSession where
  contents : List NoteContent := []
  files : List FileInfo := []
  current_summary : Option String := none
  selected_tags : List String := []
  state : NoteState := .INITIAL
  last_state : Option NoteState := none
  deriving DecidableEq

/-- Embedding of `UserSession.add_content` (src/models/session.py line 24). -/
def UserSession.add_content (s : UserSession) (t : MessageType) (c : String) : UserSession :=
  { s with contents := s.contents ++ [⟨t, c⟩] }

/-- Embedding of `UserSession.clear` (src/models/session.py lines 31-37): every
field is reset to its default, state back to INITIAL. -/
def UserSession.clear (_s : UserSession) : UserSession := {}

/- ## Tag-suggestion parsing (src/handlers/note_handler.py lines 144-153, 161) -/

/-- Python dict assignment `m[k] = v` with insertion order preserved:
update in place when the key exists, append otherwise. -/
def dictUpsert (m : List (String × String)) (k v : String) : List (String × String) :=
  if m.any (fun p => p.1 = k) then m.map (fun p => if p.1 = k then (k, v) else p)
  else m ++ [(k, v)]

/-- The tag parsing loop of `NoteHandler.handle_callback` (tags
branch, lines 144-153): split the AI response on newlines, skip blank
lines, split each line at the first `-`, strip the tag of whitespace
and `#`, skip empty tags, and record `tag -> reason` in a dict. -/
def parseTagInfo (tagsText : String) : List (String × String) :=
  (pySplitChar '\n' tagsText).foldl
    (fun m line =>
      if (pyStrip line).isEmpty then m
      else
        match pySplit1Dash line with
        | [t, r] =>
          let tag := pyStrip (stripHash (pyStrip t))
          let reason := pyStrip r
          if tag.isEmpty then m else dictUpsert m tag reason
        | _ => m)
    []

/-- A tag is rendered as pre-existing exactly when its reason contains
the marker `[已有]` (line 161: `is_existing = "[已有]" in reason`). -/
def tagReasonExisting (reason : String) : Bool :=
  pyInStr "[已有]" reason

/-- The parsed suggestions together with their pre-existing flag, as
computed in the rendering loop of the tags branch (lines 159-161):
`(name, reason, alreadyExists)`. -/
def tagSuggestions (tagsText : String) : List (String × String × Bool) :=
  (parseTagInfo tagsText).map (fun p => (p.1, p.2, tagReasonExisting p.2))

/- ## Resilient request loop (src/services/blinko_service.py lines 33-82) -/

/-- Whatever a single `session.request` round trip yields inside the
`try` block of `BlinkoService._make_request`: an HTTP response (with
the optional `Retry-After` header value and, for 200, the decoded
JSON body as an opaque string), or one of the exception classes the
source catches. -/
inductive AttemptResult
  | resp (status : Nat) (retryAfter : Option String) (body : String)
  | timeoutExc (msg : String)
  | clientExc (msg : String)
  | otherExc (msg : String)
  deriving DecidableEq

/-- The dictionary `BlinkoService._make_request` returns. -/
inductive ReqResult
  | success (body : String)
  | errorStatus (status : Nat) (details : String)
  | errorExc (msg : String)
  | errorRetriesExhausted (lastExc : Option String)
  deriving DecidableEq

/-- Observable trace of one `_make_request` run: the returned value,
how many HTTP requests were issued, and the durations (seconds) of
the `asyncio.sleep` calls, in order. -/
structure ReqTrace where
  result : ReqResult
  requestsSent : Nat
  sleeps : List Int
  deriving DecidableEq

/-- Embedding of `int(response.headers.get(Retry-After, self.retry_delay))`
(line 56): an absent header falls back to the integer default 1; a
present header goes through Python `int(...)`, whose `ValueError` on
a malformed value is reported with the offending literal. -/
def pyIntHeader (hdr : Option String) : Except String Int :=
  match hdr with
  | none => .ok 1
  | some s =>
    match pyParseInt s with
    | some n => .ok n
    | none => .error ("invalid literal for int() with base 10: " ++ s)

/-- The `while retries < self.max_retries` loop of
`BlinkoService._make_request` (lines 48-82), with
`max_retries = 3` and `retry_delay = 1`. The `oracle` gives the
outcome of the n-th HTTP request (0-based). `fuel` is `3 - retries`,
so the loop guard `retries < 3` is exactly `fuel > 0`; `retries`,
`nsent` and `sleeps` accumulate the counter, requests issued and
sleeps performed so far, `lastExc` the last retryable exception. -/
def blinkoRequestLoop (oracle : Nat → AttemptResult) :
    Nat → Nat → Nat → List Int → Option String → ReqTrace
  | 0, _, nsent, sleeps, lastExc =>
    ⟨.errorRetriesExhausted lastExc, nsent, sleeps⟩
  | fuel + 1, retries, nsent, sleeps, lastExc =>
    match oracle nsent with
    | .resp 429 hdr _ =>
      match pyIntHeader hdr with
      | .ok n => blinkoRequestLoop oracle fuel (retries + 1) (nsent + 1) (sleeps ++ [n]) lastExc
      | .error m => ⟨.errorExc ("请求异常: " ++ m), nsent + 1, sleeps⟩
    | .resp status _ body =>
      if status = 200 then ⟨.success body, nsent + 1, sleeps⟩
      else ⟨.errorStatus status body, nsent + 1, sleeps⟩
    | .timeoutExc m =>
      blinkoRequestLoop oracle fuel (retries + 1) (nsent + 1)
        (if retries + 1 < 3 then sleeps ++ [(retries : Int) + 1] else sleeps) (some m)
    | .clientExc m =>
      blinkoRequestLoop oracle fuel (retries + 1) (nsent + 1)
        (if retries + 1 < 3 then sleeps ++ [(retries : Int) + 1] else sleeps) (some m)
    | .otherExc m => ⟨.errorExc ("请求异常: " ++ m), nsent + 1, sleeps⟩

/-- Embedding of `BlinkoService._make_request` (configuration present): run the
retry loop from `retries = 0`. -/
def blinkoMakeRequest (oracle : Nat → AttemptResult) : ReqTrace :=
  blinkoRequestLoop oracle 3 0 0 [] none

/- ## User AI configuration (src/models/user.py) and AI service (src/services/ai_service.py) -/

/-- The prompt-override dict stored under `settings[prompts]`
(src/models/user.py lines 30-33). -/
structure Prompts where
  tag_prompt : Option String := none
  summary_prompt : Option String := none
  deriving DecidableEq

/-- A value of the configuration dicts passed around by the source:
Python `None`, a string, or the nested prompts dict. -/
inductive ConfigVal
  | pynone
  | pystr (s : String)
  | pyprompts (p : Prompts)
  deriving DecidableEq

/-- Python truthiness of a configuration value (`None` and the empty
string are falsy). -/
def ConfigVal.truthy : ConfigVal → Bool
  | .pynone => false
  | .pystr s => !s.isEmpty
  | .pyprompts _ => true

/-- Rendering inside an f-string: `str(None)` is `"None"`. -/
def ConfigVal.fstr : ConfigVal → String
  | .pynone => "None"
  | .pystr s => s
  | .pyprompts _ => "<prompts>"

/-- Embedding of `Option String` as a stored dict value. -/
def optVal : Option String → ConfigVal
  | none => .pynone
  | some s => .pystr s

/-- Embedding of `dict.get(k, dflt)` over an association list. -/
def dictGet (d : List (String × ConfigVal)) (k : String) (dflt : ConfigVal) : ConfigVal :=
  match d.find? (fun p => p.1 = k) with
  | some p => p.2
  | none => dflt

/-- The per-user settings the settings flow
(src/handlers/command_handler.py) can populate: AI credentials live
under `ai_config.api_key`, `ai_config.api_endpoint`,
`ai_config.model` (src/models/user.py lines 21-34). -/
structure UserSettings where
  blinko_token : Option String := none
  blinko_url : Option String := none
  jina_key : Option String := none
  ai_api_key : Option String := none
  ai_api_endpoint : Option String := none
  ai_model : Option String := none
  prompts : Prompts := {}
  deriving DecidableEq

/-- Embedding of `User.get_ai_config` (src/models/user.py lines 60-69): return the
`ai_config` sub-dict, substituting the Blinko bearer token for a
falsy `api_key`. -/
def getAiConfig (u : UserSettings) : List (String × ConfigVal) :=
  let key0 := optVal u.ai_api_key
  let key := if key0.truthy then key0 else optVal u.blinko_token
  [("api_key", key), ("api_endpoint", optVal u.ai_api_endpoint), ("model", optVal u.ai_model)]

/-- The dict handed to `AIService` by `NoteHandler._init_services`
(src/handlers/note_handler.py lines 44-46): `get_ai_config` plus the
`prompts` entry. -/
def initAiConfigDict (u : UserSettings) : List (String × ConfigVal) :=
  getAiConfig u ++ [("prompts", .pyprompts u.prompts)]

/-- The fields of `AIService` read by its operations
(src/services/ai_service.py lines 16-26). -/
structure AIService where
  api_key : ConfigVal
  api_base : ConfigVal
  model : ConfigVal
  prompts : Prompts
  deriving DecidableEq

/-- Embedding of `AIService.__init__` (src/services/ai_service.py lines 16-26):
note the dict keys it reads are `openai_key` and `openai_base`. -/
def AIService.init (config : List (String × ConfigVal)) : AIService :=
  { api_key := dictGet config "openai_key" .pynone
    api_base := dictGet config "openai_base" (.pystr "https://api.openai.com/v1")
    model := dictGet config "model" (.pystr "gpt-4-vision-preview")
    prompts :=
      match dictGet config "prompts" (.pyprompts {}) with
      | .pyprompts p => p
      | _ => {} }

/-- The decoded JSON body of a chat-completion response: an optional
`error` entry and the texts of `choices[i].message.content`. -/
structure ChatResponse where
  errorField : Option String := none
  choices : List String := []
  deriving DecidableEq

/-- Outcome of the single `session.post` in `AIService._make_request`
(src/services/ai_service.py lines 49-59). -/
inductive AIResponse
  | ok (body : ChatResponse)
  | httpError (status : Nat) (text : String)
  | exn (msg : String)
  deriving DecidableEq

/-- Observable trace of one `AIService._make_request` call: whether an
HTTP request was issued and with which `Authorization` header. -/
structure AIRequestTrace where
  requestSent : Bool
  authHeader : String
  url : String
  deriving DecidableEq

/-- Embedding of `AIService._make_request` (src/services/ai_service.py lines
40-62): build the headers from `self.api_key` — there is no check
that a key is configured — post to `{api_base}/{endpoint}`, return
the decoded body on 200 and `None` on any other status or exception.
The request body dict is not modelled (no claim depends on it). -/
def AIService.make_request (svc : AIService) (endpoint : String) (net : AIResponse) :
    AIRequestTrace × Option ChatResponse :=
  let trace : AIRequestTrace :=
    { requestSent := true
      authHeader := "Bearer " ++ svc.api_key.fstr
      url := svc.api_base.fstr ++ "/" ++ endpoint }
  match net with
  | .ok body => (trace, some body)
  | .httpError _ _ => (trace, none)
  | .exn _ => (trace, none)

/-- The parameter names of `AIService._make_request` (line 40):
`(self, endpoint, data)`. -/
def makeRequestParamNames : List String := ["endpoint", "data"]

/-- The keyword-argument names `AIService._call_openai` passes to
`self._make_request` (lines 66-81): `headers` and `json`. -/
def callOpenaiKeywordArgs : List String := ["headers", "json"]

/-- Python call binding for the keyword arguments: every keyword must
name a parameter, else the call raises `TypeError`. -/
def pyKwargsBind (params kwargs : List String) : Bool :=
  kwargs.all (fun k => params.contains k)

/-- Embedding of `AIService._call_openai` (src/services/ai_service.py lines
64-90). The call `self._make_request(f"{self.api_base}/chat/completions",
headers=..., json=...)` passes keyword arguments `headers` and `json`
that `_make_request(self, endpoint, data)` does not accept, so Python
raises `TypeError` at the call; the remaining lines model what would
run if the call bound (the error-field check and choices
extraction). -/
def AIService.call_openai (svc : AIService) (prompt : String) (net : AIResponse) :
    Except PyErr String :=
  let _ := prompt
  match pyKwargsBind makeRequestParamNames callOpenaiKeywordArgs with
  | false =>
    .error (.typeError "_make_request() got an unexpected keyword argument headers")
  | true =>
    match (svc.make_request (svc.api_base.fstr ++ "/chat/completions") net).2 with
    | none => .error (.typeError "argument of type NoneType is not iterable")
    | some r =>
      match r.errorField with
      | some e => .ok ("OpenAI调用失败: " ++ e)
      | none =>
        match r.choices.head? with
        | some c => .ok c
        | none => .ok "AI响应解析失败"

/-- The placeholder rendering of `AIService.summarize`
(src/services/ai_service.py lines 95-108): text passes through,
non-text kinds become fixed bracket tokens, links keep their URL. -/
def renderItem (c : NoteContent) : String :=
  match c.type with
  | .TEXT => c.content
  | .IMAGE => "[图片]"
  | MessageType.AUDIO => "[音频]"
  | .VIDEO => "[视频]"
  | .URL => "[链接] " ++ c.content
  | .FILE => "[文件]"

/-- The built-in default summary template (lines 111-119). -/
def defaultSummaryPrompt : String :=
  "请总结以下内容，生成一个简洁的摘要：\n\n{content}\n\n要求：\n1. 保持原文的主要信息\n2. 使用简洁的语言\n3. 突出重点内容\n4. 长度控制在100字以内"

/-- Embedding of `template.format(content=...)` for templates whose only
placeholder is `{content}` (true of the default template). -/
def formatContent (template content : String) : String :=
  pyReplace template "{content}" content

/-- Embedding of `AIService.summarize` (src/services/ai_service.py lines 92-125):
render every item, fill the summary template (the override when
configured, else the default), and call `_call_openai`. -/
def AIService.summarize (svc : AIService) (contents : List NoteContent) (net : AIResponse) :
    Except PyErr String :=
  let texts := contents.map renderItem
  let template :=
    match svc.prompts.summary_prompt with
    | some t => t
    | none => defaultSummaryPrompt
  svc.call_openai (formatContent template (pyJoin " " texts)) net

/-- Embedding of `AIService.describe_image` (src/services/ai_service.py lines
189-231): post to `chat/completions`, return the first choice
stripped, `None` on any failure. -/
def AIService.describe_image (svc : AIService) (net : AIResponse) :
    AIRequestTrace × Option String :=
  let (trace, resp) := svc.make_request "chat/completions" net
  match resp with
  | some r =>
    match r.choices.head? with
    | some c => (trace, some (pyStrip c))
    | none => (trace, none)
  | none => (trace, none)

/-- Embedding of `AIService.parse_file` (src/services/ai_service.py lines 172-187):
fixed stub strings per kind, no network call. -/
def AIService.parse_file (t : MessageType) : String :=
  match t with
  | .IMAGE => "图片解析功能开发中..."
  | MessageType.AUDIO => "音频转写功能开发中..."
  | .VIDEO => "视频解析功能开发中..."
  | _ => "不支持的文件类型"

/- ## Callback dispatch (src/handlers/note_handler.py lines 75-333) -/

/-- Result of `BlinkoService.get_tags` as consumed by the handler:
either the tag list (only the names of its dict entries matter) or an
error dict. -/
inductive GetTagsResult
  | tags (names : List String)
  | errorDict (msg : String)
  deriving DecidableEq

/-- Environment of one callback dispatch: the outcomes of every
external call the handler can make. `upload f` is `some token` when
`upload_file_by_url` returns a truthy, error-free result; `saveNote`
is the outcome of `BlinkoService.save_note`; `jina` the result of
`_parse_url_with_jina` (which catches its own exceptions and returns
`None` on any failure); `ai`/`aiNet` the AI service instance and the
network outcome its request would see. -/
structure Env where
  getTags : GetTagsResult
  upload : String → Option String
  saveNote : Except String (String × String)
  jina : String → Option String
  ai : AIService
  aiNet : AIResponse

/-- The note body to upsert (the `note_data` dict of `_save_note`,
lines 287-303): the joined content and the successfully uploaded
attachments (an empty list models the absent `attachments` key; the
`type`/`createdAt` entries carry no session-dependent information). -/
structure NotePayload where
  content : String
  attachments : List String
  deriving DecidableEq

/-- The content pieces collected by `_save_note` (lines 267-281):
text items pass through; URL items are rendered with the Jina parse
result when it is truthy, else as the bare URL; every other kind is
skipped. -/
def saveContents (items : List NoteContent) (jina : String → Option String) : List String :=
  items.foldr
    (fun c acc =>
      match c.type with
      | .TEXT => c.content :: acc
      | .URL =>
        (match jina c.content with
         | some r => if r.isEmpty then "URL: " ++ c.content else "URL: " ++ c.content ++ "\n" ++ r
         | none => "URL: " ++ c.content) :: acc
      | _ => acc)
    []

/-- The payload `_save_note` sends to `/api/v1/note/upsert`
(lines 284-306). -/
def buildNotePayload (s : UserSession) (env : Env) : NotePayload :=
  { content := pyJoin "\n\n" (saveContents s.contents env.jina)
    attachments := s.files.filterMap (fun f => env.upload f.file_url) }

/-- What the user is shown at the end of a dispatch.  `menu` is the
`_show_action_buttons` render; `errorMenu a m` is the render of the
outer exception handler (lines 253-261), whose retry button re-issues
action `a`. -/
inductive RenderOutput
  | text (msg : String)
  | menu
  | summaryMenu (summary : String)
  | tagMenu (names : List String) (selected : List String)
  | errorMenu (retryAction : String) (msg : String)
  | answer (msg : String)
  | noOutput
  deriving DecidableEq

/-- Result of one `handle_callback` dispatch: the mutated session,
the final render, and the payload of the `note/upsert` call when one
was made. -/
structure DispatchResult where
  session : UserSession
  output : RenderOutput
  upsertCalled : Option NotePayload
  deriving DecidableEq

/-- The tag names extracted from a `get_tags` result by the `tag_`
branch (line 194): iterating an error dict yields its string keys,
none of which is a dict, so the names are empty. -/
def getTagNames : GetTagsResult → List String
  | .tags names => names
  | .errorDict _ => []

/-- The toggle of the `tag_` branch (lines 186-189): remove the first
occurrence when selected (`list.remove`), else append. -/
def toggleTag (tags : List String) (t : String) : List String :=
  if t ∈ tags then tags.erase t else tags ++ [t]

/-- Embedding of `" ".join(f"#{tag}" for tag in selected_tags)` (line 222). -/
def saveTagsText (tags : List String) : String :=
  pyJoin " " (tags.map (fun t => "#" ++ t))

/-- The `save_tags` mutation of the contents (lines 223-228): when
the last item is text the block is appended to it in place, otherwise
a new text item is appended; empty contents are left alone. -/
def appendTagsToContents (items : List NoteContent) (tagsText : String) : List NoteContent :=
  match items.getLast? with
  | none => items
  | some last =>
    if last.type = .TEXT then items.dropLast ++ [⟨.TEXT, last.content ++ "\n" ++ tagsText⟩]
    else items ++ [⟨.TEXT, tagsText⟩]

/-- Embedding of `NoteHandler._save_note` (lines 263-333) followed by the `save`
branch (lines 97-100): the upsert is always reached (the upload and
Jina steps never raise), so the result is the payload together with
the raised error message when `save_note` reported one.  On success
`_save_note` returns and line 100 clears the session; on failure the
`except` block re-raises after reporting, so the session is left as
it was and the outer handler renders the error menu. -/
def saveNoteOutcome (s : UserSession) (env : Env) : NotePayload × Option String :=
  (buildNotePayload s env,
   match env.saveNote with
   | .ok _ => none
   | .error m => some m)

/-- Embedding of `NoteHandler.handle_callback` (src/handlers/note_handler.py lines
75-261), dispatching on the callback-data string exactly in the
`if`/`elif` order of the source.  Branches that raise are folded with the
outer `except` (lines 251-261), which renders the error menu over the
session as mutated so far.  The `summarize` and `tags` branches call
the AI service, whose `_call_openai`/`generate_tags` calls raise
`TypeError` (bad keyword arguments, and the two-argument call of the
re-defined one-argument `generate_tags` at line 141); `parse` uses
the pure `parse_file` stubs. -/
def handleCallback (s : UserSession) (action : String) (env : Env) : DispatchResult :=
  if s.state = .INITIAL then ⟨s, .answer "请先发送一条消息", none⟩
  else if action = "continue" then
    ⟨{ s with state := .COLLECTING }, .text "请继续输入内容...", none⟩
  else if action = "save" then
    match saveNoteOutcome s env with
    | (p, none) => ⟨UserSession.clear s, .text "✅ 笔记已保存到Blinko", some p⟩
    | (p, some m) => ⟨s, .errorMenu action m, some p⟩
  else if action = "summarize" then
    let s1 := { s with state := NoteState.SUMMARIZING }
    match env.ai.summarize s1.contents env.aiNet with
    | .ok sum => ⟨{ s1 with current_summary := some sum }, .summaryMenu sum, none⟩
    | .error e => ⟨s1, .errorMenu action e.msg, none⟩
  else if action = "save_summary" then
    match s.current_summary with
    | some sum =>
      if sum.isEmpty then ⟨s, .text "没有可保存的总结内容", none⟩
      else ⟨s.add_content .TEXT sum, .menu, none⟩
    | none => ⟨s, .text "没有可保存的总结内容", none⟩
  else if action = "tags" then
    let s1 := { s with state := NoteState.SELECTING_TAGS }
    match env.getTags with
    | .errorDict m => ⟨s1, .errorMenu action ("获取标签失败: " ++ m), none⟩
    | .tags _ =>
      ⟨s1, .errorMenu action "generate_tags() takes 2 positional arguments but 3 were given", none⟩
  else if pyStartsWith action "tag_" then
    let tag := pyReplace action "tag_" ""
    let tags1 := toggleTag s.selected_tags tag
    ⟨{ s with selected_tags := tags1 }, .tagMenu (getTagNames env.getTags) tags1, none⟩
  else if action = "save_tags" then
    ⟨{ s with contents := appendTagsToContents s.contents (saveTagsText s.selected_tags) },
      .menu, none⟩
  else if action = "parse" then
    let s1 := { s with state := NoteState.PARSING_CONTENT }
    match s1.contents.getLast? with
    | none => ⟨s1, .errorMenu action "list index out of range", none⟩
    | some last => ⟨s1.add_content .TEXT (AIService.parse_file last.type), .menu, none⟩
  else if action = "cancel" then
    ⟨UserSession.clear s, .text "取消，您可以开始新的输入。", none⟩
  else if action = "back" then
    match s.last_state with
    | some st => ⟨{ s with state := st, last_state := none }, .menu, none⟩
    | none => ⟨s, .menu, none⟩
  else ⟨s, .noOutput, none⟩

/- ## Concrete fixtures for the counterexamples and witnesses -/

/-- A session awaiting an action with one collected text item. -/
def sessionAwaiting : UserSession :=
  { contents := [⟨.TEXT, "hi"⟩], state := .AWAITING_ACTION }

/-- A session awaiting an action with one text item and one selected
tag. -/
def sessionWithTag : UserSession :=
  { contents := [⟨.TEXT, "hello"⟩], selected_tags := ["a"], state := .AWAITING_ACTION }

/-- A session awaiting an action with two selected tags. -/
def sessionTwoTags : UserSession :=
  { contents := [⟨.TEXT, "hello"⟩], selected_tags := ["a", "b"], state := .AWAITING_ACTION }

/-- An AI service built (as `NoteHandler._init_services` builds it)
from a fully populated settings-flow configuration. -/
def svcFromSettingsFlow : AIService :=
  AIService.init (initAiConfigDict
    { blinko_token := some "blinko-tok"
      blinko_url := some "https://blinko.example"
      ai_api_key := some "sk-user-key"
      ai_api_endpoint := some "https://my-ai.example/v1"
      ai_model := some "gpt-4o" })

/-- A dispatch environment whose note upsert fails. -/
def envSaveFail : Env :=
  { getTags := .tags []
    upload := fun _ => none
    saveNote := .error "请求失败: 500"
    jina := fun _ => none
    ai := svcFromSettingsFlow
    aiNet := .exn "conn reset" }

/-- A dispatch environment whose external calls succeed. -/
def envAllOk : Env :=
  { getTags := .tags ["work"]
    upload := fun u => some ("stored:" ++ u)
    saveNote := .ok ("https://blinko.example/note/1", "1")
    jina := fun _ => none
    ai := svcFromSettingsFlow
    aiNet := .ok { choices := ["fine"] } }

/- ## Sanity checks of the embedding on concrete inputs -/

example : parseTagInfo "groceries - relevant to shopping" = [("groceries", "relevant to shopping")] := by
  decide

example : tagReasonExisting "[已有] 已标记" = true := by decide

example :
    blinkoMakeRequest (fun _ => .resp 429 (some "2") "") =
      ⟨.errorRetriesExhausted none, 3, [2, 2, 2]⟩ := by decide

example :
    blinkoMakeRequest (fun n => if n = 0 then .resp 429 (some "2") "" else .resp 200 none "ok") =
      ⟨.success "ok", 2, [2]⟩ := by decide

example :
    blinkoMakeRequest (fun n => if n = 0 then .resp 429 none "" else .resp 200 none "ok") =
      ⟨.success "ok", 2, [1]⟩ := by decide

example :
    blinkoMakeRequest (fun _ => .timeoutExc "t") =
      ⟨.errorRetriesExhausted (some "t"), 3, [1, 2]⟩ := by decide

example : pyKwargsBind makeRequestParamNames callOpenaiKeywordArgs = false := by decide

example : svcFromSettingsFlow.api_key = .pynone := by decide

example :
    (handleCallback sessionAwaiting "save" envAllOk).session = UserSession.clear sessionAwaiting := by
  decide

example :
    (handleCallback sessionAwaiting "cancel" envAllOk).session.state = .INITIAL := by decide

example :
    (handleCallback sessionWithTag "tag_a" envAllOk).session.selected_tags = [] := by decide

/- ## Helper lemmas -/

/-- Appending the tag block when the last item is text mutates only
that item. -/
theorem appendTags_concat (pre : List NoteContent) (c tagsText : String) :
    appendTagsToContents (pre ++ [⟨.TEXT, c⟩]) tagsText =
      pre ++ [⟨.TEXT, c ++ "\n" ++ tagsText⟩] := by
  simp [appendTagsToContents, List.getLast?_concat, List.dropLast_concat]

/-- Toggling a fresh tag twice restores the selection exactly. -/
theorem toggleTag_twice_of_not_mem (l : List String) (t : String) (h : t ∉ l) :
    toggleTag (toggleTag l t) t = l := by
  simp only [toggleTag, if_neg h]
  have hmem : t ∈ l ++ [t] := by simp
  rw [if_pos hmem, List.erase_append_right _ h]
  simp

/-- Toggling an already-selected tag twice (no duplicates) removes it
and re-appends it at the end. -/
theorem toggleTag_twice_of_mem (l : List String) (t : String) (h : t ∈ l) (hnd : l.Nodup) :
    toggleTag (toggleTag l t) t = l.erase t ++ [t] := by
  have h2 : t ∉ l.erase t := fun hc => by
    rw [List.Nodup.mem_erase_iff hnd] at hc
    exact hc.1 rfl
  simp only [toggleTag, if_pos h, if_neg h2]

/-- Toggling twice restores membership of every tag. -/
theorem toggleTag_twice_mem (l : List String) (t : String) (hnd : l.Nodup) (x : String) :
    x ∈ toggleTag (toggleTag l t) t ↔ x ∈ l := by
  by_cases h : t ∈ l
  · rw [toggleTag_twice_of_mem l t h hnd]
    by_cases hx : x = t
    · subst hx; simp [h]
    · simp [hx, List.mem_erase_of_ne hx]
  · rw [toggleTag_twice_of_not_mem l t h]

/-- Embedding of `AIService.summarize` reduces to a `TypeError` on every input:
the `_call_openai` call of `_make_request` can never bind its keyword
arguments. -/
theorem ai_summarize_eq (svc : AIService) (contents : List NoteContent) (net : AIResponse) :
    svc.summarize contents net =
      .error (.typeError "_make_request() got an unexpected keyword argument headers") := rfl

/- ## Claim theorems -/

/-- C2: a 429 response makes the client sleep for the parsed
Retry-After duration and retry, and each such wait-and-retry consumes
one attempt of the budget of 3: a 429 followed by a 200 yields the
200 body after two requests and one sleep, and three consecutive
429 responses end in the retries-exhausted error after exactly three
requests (the trace shows no fourth request is issued), having slept
each parsed duration. -/
theorem C2_rate_limit_retry_budget :
    (∀ (oracle : Nat → AttemptResult) (h0 : Option String) (b0 body : String) (n0 : Int),
      oracle 0 = .resp 429 h0 b0 → pyIntHeader h0 = .ok n0 →
      oracle 1 = .resp 200 none body →
      blinkoMakeRequest oracle = ⟨.success body, 2, [n0]⟩) ∧
    (∀ (oracle : Nat → AttemptResult) (h0 h1 h2 : Option String) (b0 b1 b2 : String)
      (n0 n1 n2 : Int),
      oracle 0 = .resp 429 h0 b0 → pyIntHeader h0 = .ok n0 →
      oracle 1 = .resp 429 h1 b1 → pyIntHeader h1 = .ok n1 →
      oracle 2 = .resp 429 h2 b2 → pyIntHeader h2 = .ok n2 →
      blinkoMakeRequest oracle = ⟨.errorRetriesExhausted none, 3, [n0, n1, n2]⟩) := by
  constructor
  · intro oracle h0 b0 body n0 e0 p0 e1
    simp [blinkoMakeRequest, blinkoRequestLoop, e0, p0, e1]
  · intro oracle h0 h1 h2 b0 b1 b2 n0 n1 n2 e0 p0 e1 p1 e2 p2
    simp [blinkoMakeRequest, blinkoRequestLoop, e0, p0, e1, p1, e2, p2]

/-- C2 witness: both parts at concrete oracles with `Retry-After: 2`. -/
theorem C2_rate_limit_retry_budget_witness :
    blinkoMakeRequest (fun n => if n = 0 then .resp 429 (some "2") "" else .resp 200 none "ok") =
      ⟨.success "ok", 2, [2]⟩ ∧
    blinkoMakeRequest (fun _ => .resp 429 (some "2") "") =
      ⟨.errorRetriesExhausted none, 3, [2, 2, 2]⟩ :=
  ⟨C2_rate_limit_retry_budget.1 _ (some "2") "" "ok" 2 rfl rfl rfl,
   C2_rate_limit_retry_budget.2 _ (some "2") (some "2") (some "2") "" "" "" 2 2 2
     rfl rfl rfl rfl rfl rfl⟩

/-- C8 counterexample: a 429 whose Retry-After header is `"abc"` does
not produce the default 1-second sleep and a retry; `int("abc")`
raises `ValueError` inside the `try`, the generic `except Exception`
branch returns the terminal request-exception error, and the trace
shows a single request with no sleep. -/
theorem C8_counterexample :
    blinkoMakeRequest (fun _ => .resp 429 (some "abc") "") =
      ⟨.errorExc "请求异常: invalid literal for int() with base 10: abc", 1, []⟩ ∧
    (blinkoMakeRequest (fun _ => .resp 429 (some "abc") "")).sleeps ≠ [1] := by
  decide

/-- C8 amended: a 429 with an absent Retry-After header sleeps the
default 1 second and retries; a 429 whose header is present but not
parseable as an integer is turned into a terminal request-exception
error by the generic exception branch, with no sleep and no retry. -/
theorem C8_retry_after_default_vs_malformed :
    (∀ (oracle : Nat → AttemptResult) (b0 body : String),
      oracle 0 = .resp 429 none b0 → oracle 1 = .resp 200 none body →
      blinkoMakeRequest oracle = ⟨.success body, 2, [1]⟩) ∧
    (∀ (oracle : Nat → AttemptResult) (v b0 : String),
      oracle 0 = .resp 429 (some v) b0 → pyParseInt v = none →
      blinkoMakeRequest oracle =
        ⟨.errorExc ("请求异常: " ++ ("invalid literal for int() with base 10: " ++ v)), 1, []⟩) := by
  constructor
  · intro oracle b0 body e0 e1
    simp [blinkoMakeRequest, blinkoRequestLoop, e0, e1, pyIntHeader]
  · intro oracle v b0 e0 pv
    simp [blinkoMakeRequest, blinkoRequestLoop, e0, pyIntHeader, pv]

/-- C8 witness: both parts at concrete oracles. -/
theorem C8_retry_after_default_vs_malformed_witness :
    blinkoMakeRequest (fun n => if n = 0 then .resp 429 none "" else .resp 200 none "ok") =
      ⟨.success "ok", 2, [1]⟩ ∧
    blinkoMakeRequest (fun _ => .resp 429 (some "soon") "") =
      ⟨.errorExc "请求异常: invalid literal for int() with base 10: soon", 1, []⟩ :=
  ⟨C8_retry_after_default_vs_malformed.1 _ "" "ok" rfl rfl,
   C8_retry_after_default_vs_malformed.2 _ "soon" "" rfl rfl⟩

/-- C7 counterexample: on the response of the scenario of the claim the
parser does yield the two suggestions, but `urgent` is NOT marked
pre-existing — the marker the code tests for is `[已有]`, not
`[existing]`. -/
theorem C7_counterexample :
    tagSuggestions "groceries - relevant to shopping\nurgent - [existing] marked urgent" =
      [("groceries", "relevant to shopping", false),
       ("urgent", "[existing] marked urgent", false)] ∧
    ("urgent", "[existing] marked urgent", true) ∉
      tagSuggestions "groceries - relevant to shopping\nurgent - [existing] marked urgent" := by
  decide

/-- C7 amended: the response is split into newline-delimited
`<tag> - <rationale>` entries, and a parsed tag is marked as already
existing exactly when its rationale contains the `[已有]` marker (not
`[existing]`): on the input of the claim both parsed tags carry a false
flag, replacing the marker by `[已有]` marks `urgent`, and in general
the flag of every parsed suggestion is the `[已有]` containment test
of its rationale. -/
theorem C7_marker_parsing :
    tagSuggestions "groceries - relevant to shopping\nurgent - [existing] marked urgent" =
      [("groceries", "relevant to shopping", false),
       ("urgent", "[existing] marked urgent", false)] ∧
    tagSuggestions "groceries - relevant to shopping\nurgent - [已有] marked urgent" =
      [("groceries", "relevant to shopping", false),
       ("urgent", "[已有] marked urgent", true)] ∧
    (∀ (txt name reason : String) (flag : Bool),
      (name, reason, flag) ∈ tagSuggestions txt →
      (flag = true ↔ pyInStr "[已有]" reason = true)) := by
  refine ⟨by decide, by decide, ?_⟩
  intro txt name reason flag hmem
  simp only [tagSuggestions, List.mem_map] at hmem
  obtain ⟨p, _, he⟩ := hmem
  injection he with h1 hrest
  injection hrest with h2 h3
  subst h2
  subst h3
  exact Iff.rfl

/-- C7 witness: the general marker characterisation applied to a
concrete parsed suggestion. -/
theorem C7_marker_parsing_witness :
    ("urgent", "[已有] marked urgent", true) ∈ tagSuggestions "urgent - [已有] marked urgent" ∧
    (true = true ↔ pyInStr "[已有]" "[已有] marked urgent" = true) :=
  ⟨by decide,
   C7_marker_parsing.2.2 "urgent - [已有] marked urgent" "urgent" "[已有] marked urgent" true
     (by decide)⟩

/-- C4 counterexample: an AI service built from a fully populated
settings-flow configuration has no API key (`None`), yet
`_make_request` issues the HTTP request anyway — with the header
`Authorization: Bearer None` — and `describe_image` completes from
the network response; no configuration error is produced before the
network call. -/
theorem C4_counterexample :
    svcFromSettingsFlow.api_key = .pynone ∧
    (svcFromSettingsFlow.make_request "chat/completions" (.ok { choices := ["a cat"] })).1.requestSent = true ∧
    (svcFromSettingsFlow.make_request "chat/completions" (.ok { choices := ["a cat"] })).1.authHeader = "Bearer None" ∧
    (svcFromSettingsFlow.describe_image (.ok { choices := ["a cat"] })).2 = some "a cat" := by
  decide

/-- C4 amended: `AIService._make_request` never checks for a missing
API key: with `api_key = None` it still issues the request, carrying
the header `Authorization: Bearer None`, for every endpoint and
network outcome — there is no configuration-error short-circuit. -/
theorem C4_missing_key_no_short_circuit (svc : AIService) (endpoint : String)
    (net : AIResponse) (h : svc.api_key = .pynone) :
    (svc.make_request endpoint net).1.requestSent = true ∧
    (svc.make_request endpoint net).1.authHeader = "Bearer None" := by
  cases net <;> simp [AIService.make_request, h, ConfigVal.fstr]

/-- C4 witness: the amended theorem at the settings-flow service. -/
theorem C4_missing_key_no_short_circuit_witness :
    (svcFromSettingsFlow.make_request "chat/completions" (.exn "conn reset")).1.requestSent = true ∧
    (svcFromSettingsFlow.make_request "chat/completions" (.exn "conn reset")).1.authHeader = "Bearer None" :=
  C4_missing_key_no_short_circuit svcFromSettingsFlow "chat/completions" (.exn "conn reset")
    (by decide)

/-- C6: `summarize` never returns a string: for every service
instance, content list and network outcome it raises `TypeError`,
because `_call_openai` calls `self._make_request(...)` with keyword
arguments `headers` and `json` that `_make_request(self, endpoint,
data)` does not accept — the claimed behaviour of always returning a
string and never raising is contradicted on every input. -/
theorem C6_summarize_raises (svc : AIService) (contents : List NoteContent) (net : AIResponse) :
    svc.summarize contents net =
      .error (.typeError "_make_request() got an unexpected keyword argument headers") := by
  rfl

/-- C10: for every user configuration produced by the settings flow,
the AI service constructed by `_init_services` looks up the keys
`openai_key`/`openai_base`, which `get_ai_config` never populates:
its API key is always `None`, its endpoint is always the built-in
default, and every request it makes carries the header
`Authorization: Bearer None` — the configured key of the user, endpoint
and the Blinko-token fall-back are never used. -/
theorem C10_config_key_mismatch (u : UserSettings) (endpoint : String) (net : AIResponse) :
    (AIService.init (initAiConfigDict u)).api_key = .pynone ∧
    (AIService.init (initAiConfigDict u)).api_base = .pystr "https://api.openai.com/v1" ∧
    ((AIService.init (initAiConfigDict u)).make_request endpoint net).1.authHeader =
      "Bearer None" := by
  refine ⟨rfl, rfl, ?_⟩
  cases net <;> rfl

/-- C1 counterexample: dispatching `save` on a session awaiting an
action, with a failing upsert, does invoke the upsert but leaves the
session exactly as it was — still `AWAITING_ACTION` with its content
— instead of clearing it to the initial state: `_save_note`
re-raises, so the `clear()` on line 100 is skipped. -/
theorem C1_counterexample :
    (handleCallback sessionAwaiting "save" envSaveFail).upsertCalled = some ⟨"hi", []⟩ ∧
    (handleCallback sessionAwaiting "save" envSaveFail).session = sessionAwaiting ∧
    (handleCallback sessionAwaiting "save" envSaveFail).session.state = .AWAITING_ACTION ∧
    NoteState.AWAITING_ACTION ≠ NoteState.INITIAL := by
  decide

/-- C1 amended: `save` always invokes the note upsert; on success the
session is cleared to the initial state, but on failure the error is
reported with a retry menu and the session is left unchanged — it is
NOT cleared. -/
theorem C1_save_clears_only_on_success (s : UserSession) (env : Env)
    (h : s.state = .AWAITING_ACTION) :
    (handleCallback s "save" env).upsertCalled = some (buildNotePayload s env) ∧
    (∀ u i, env.saveNote = .ok (u, i) →
      (handleCallback s "save" env).session = UserSession.clear s ∧
      (handleCallback s "save" env).session.state = .INITIAL ∧
      (handleCallback s "save" env).output = .text "✅ 笔记已保存到Blinko") ∧
    (∀ m, env.saveNote = .error m →
      (handleCallback s "save" env).session = s ∧
      (handleCallback s "save" env).output = .errorMenu "save" m) := by
  have hne : s.state ≠ .INITIAL := by rw [h]; decide
  refine ⟨?_, ?_, ?_⟩
  · rcases he : env.saveNote with m | ui <;>
      simp [handleCallback, saveNoteOutcome, hne, he]
  · intro u i he
    simp [handleCallback, saveNoteOutcome, hne, he, UserSession.clear]
  · intro m he
    simp [handleCallback, saveNoteOutcome, hne, he]

/-- C1 witness: the amended theorem at the concrete fixtures, both
outcomes. -/
theorem C1_save_clears_only_on_success_witness :
    (handleCallback sessionAwaiting "save" envAllOk).session = UserSession.clear sessionAwaiting ∧
    (handleCallback sessionAwaiting "save" envSaveFail).session = sessionAwaiting :=
  ⟨((C1_save_clears_only_on_success sessionAwaiting envAllOk rfl).2.1
      "https://blinko.example/note/1" "1" rfl).1,
   ((C1_save_clears_only_on_success sessionAwaiting envSaveFail rfl).2.2
      "请求失败: 500" rfl).1⟩

/-- C3 counterexample: two consecutive `save_tags` dispatches with an
unchanged selection append the `#tag` block twice: the last text item
ends up `"hello\n#a\n#a"`, not the claimed single append. -/
theorem C3_counterexample :
    ((handleCallback (handleCallback sessionWithTag "save_tags" envAllOk).session
        "save_tags" envAllOk).session).contents = [⟨.TEXT, "hello\n#a\n#a"⟩] ∧
    ([⟨.TEXT, "hello\n#a\n#a"⟩] : List NoteContent) ≠ [⟨.TEXT, "hello\n#a"⟩] := by
  decide

/-- C3 amended: a single `save_tags` appends the space-joined `#tag`
block exactly once — to the last item when it is text, never also as
a new item — but `save_tags` is not idempotent: a second dispatch
with no change to the selection appends the same block a second
time. -/
theorem C3_save_tags_append (s : UserSession) (env : Env) (pre : List NoteContent) (c : String)
    (hst : s.state ≠ .INITIAL) (hc : s.contents = pre ++ [⟨.TEXT, c⟩]) :
    ((handleCallback s "save_tags" env).session).contents =
      pre ++ [⟨.TEXT, c ++ "\n" ++ saveTagsText s.selected_tags⟩] ∧
    ((handleCallback (handleCallback s "save_tags" env).session "save_tags" env).session).contents =
      pre ++ [⟨.TEXT,
        c ++ "\n" ++ saveTagsText s.selected_tags ++ "\n" ++ saveTagsText s.selected_tags⟩] := by
  constructor
  · simp [handleCallback, hst, hc, appendTags_concat,
      (by decide : pyStartsWith "save_tags" "tag_" = false)]
  · simp [handleCallback, hst, hc, appendTags_concat,
      (by decide : pyStartsWith "save_tags" "tag_" = false)]

/-- C3 witness: the amended theorem at the concrete session with one
selected tag. -/
theorem C3_save_tags_append_witness :
    ((handleCallback sessionWithTag "save_tags" envAllOk).session).contents =
      [⟨.TEXT, "hello\n#a"⟩] ∧
    ((handleCallback (handleCallback sessionWithTag "save_tags" envAllOk).session
        "save_tags" envAllOk).session).contents = [⟨.TEXT, "hello\n#a\n#a"⟩] :=
  C3_save_tags_append sessionWithTag envAllOk [] "hello" (by decide) rfl

/-- C9 counterexample: toggling an already-selected tag twice does
not restore the displayed insertion order — with selection
`["a", "b"]`, toggling `a` twice yields `["b", "a"]`. -/
theorem C9_counterexample :
    ((handleCallback (handleCallback sessionTwoTags "tag_a" envAllOk).session
        "tag_a" envAllOk).session).selected_tags = ["b", "a"] ∧
    (["b", "a"] : List String) ≠ ["a", "b"] := by
  decide

/-- C9 amended: toggling the same tag twice restores the selected-tag
membership exactly; for a tag that was not selected before, the list
(and so the display order) is restored exactly, but a tag that was
already selected is removed and re-appended at the end, so the
insertion order is only preserved when it was last. -/
theorem C9_toggle_twice (s : UserSession) (env : Env) (a : String)
    (hst : s.state ≠ .INITIAL) (hsw : pyStartsWith a "tag_" = true)
    (hnd : s.selected_tags.Nodup) :
    (((handleCallback (handleCallback s a env).session a env).session).selected_tags =
      if pyReplace a "tag_" "" ∈ s.selected_tags
      then s.selected_tags.erase (pyReplace a "tag_" "") ++ [pyReplace a "tag_" ""]
      else s.selected_tags) ∧
    (∀ x, x ∈ ((handleCallback (handleCallback s a env).session a env).session).selected_tags ↔
      x ∈ s.selected_tags) := by
  have hc1 : a ≠ "continue" := fun he => absurd (he ▸ hsw) (by decide)
  have hc2 : a ≠ "save" := fun he => absurd (he ▸ hsw) (by decide)
  have hc3 : a ≠ "summarize" := fun he => absurd (he ▸ hsw) (by decide)
  have hc4 : a ≠ "save_summary" := fun he => absurd (he ▸ hsw) (by decide)
  have hc5 : a ≠ "tags" := fun he => absurd (he ▸ hsw) (by decide)
  constructor
  · by_cases hm : pyReplace a "tag_" "" ∈ s.selected_tags
    · simp [handleCallback, hst, hc1, hc2, hc3, hc4, hc5, hsw, hm,
        toggleTag_twice_of_mem _ _ hm hnd]
    · simp [handleCallback, hst, hc1, hc2, hc3, hc4, hc5, hsw, hm,
        toggleTag_twice_of_not_mem _ _ hm]
  · intro x
    simp only [handleCallback, hst, hc1, hc2, hc3, hc4, hc5, hsw,
      if_neg hst, if_true]
    simp [hst, hc1, hc2, hc3, hc4, hc5, hsw]
    exact toggleTag_twice_mem _ _ hnd x

/-- C9 witness: the amended theorem at a session with selection
`["a", "b"]` and action `tag_a`. -/
theorem C9_toggle_twice_witness :
    (((handleCallback (handleCallback sessionTwoTags "tag_a" envAllOk).session
        "tag_a" envAllOk).session).selected_tags =
      if pyReplace "tag_a" "tag_" "" ∈ sessionTwoTags.selected_tags
      then sessionTwoTags.selected_tags.erase (pyReplace "tag_a" "tag_" "") ++
        [pyReplace "tag_a" "tag_" ""]
      else sessionTwoTags.selected_tags) ∧
    (∀ x, x ∈ (((handleCallback (handleCallback sessionTwoTags "tag_a" envAllOk).session
        "tag_a" envAllOk).session).selected_tags) ↔ x ∈ sessionTwoTags.selected_tags) :=
  C9_toggle_twice sessionTwoTags envAllOk "tag_a" (by decide) (by decide) (by decide)

/-- C5 counterexample: entering `Summarizing` from `AwaitingAction`
does not record `AwaitingAction` as the previous state —
`last_state` stays `None` — and a subsequent `back` leaves the
session in `Summarizing` rather than restoring `AwaitingAction`. -/
theorem C5_counterexample :
    ((handleCallback sessionAwaiting "summarize" envSaveFail).session).state = .SUMMARIZING ∧
    ((handleCallback sessionAwaiting "summarize" envSaveFail).session).last_state = none ∧
    ((handleCallback ((handleCallback sessionAwaiting "summarize" envSaveFail).session)
        "back" envSaveFail).session).state = .SUMMARIZING ∧
    NoteState.SUMMARIZING ≠ NoteState.AWAITING_ACTION := by
  decide

/-- C5 amended: no dispatch ever sets `previousState`: when it is
unset it stays unset after every action, and `back` with it unset
only re-renders the action menu, leaving the session unchanged. (The
`back` branch would restore a set `previousState`, but no transition
records one.) -/
theorem C5_last_state_never_set (s : UserSession) (action : String) (env : Env)
    (h : s.last_state = none) :
    ((handleCallback s action env).session).last_state = none ∧
    (s.state ≠ .INITIAL →
      (handleCallback s "back" env).session = s ∧
      (handleCallback s "back" env).output = .menu) := by
  constructor
  · unfold handleCallback
    by_cases h0 : s.state = .INITIAL
    · simp [h0, h]
    rw [if_neg h0]
    by_cases h1 : action = "continue"
    · simp [h1, h]
    rw [if_neg h1]
    by_cases h2 : action = "save"
    · rw [if_pos h2]
      rcases he : env.saveNote with m | ui <;>
        simp [saveNoteOutcome, he, h, UserSession.clear]
    rw [if_neg h2]
    by_cases h3 : action = "summarize"
    · rw [if_pos h3]
      simp [ai_summarize_eq, h]
    rw [if_neg h3]
    by_cases h4 : action = "save_summary"
    · rw [if_pos h4]
      rcases hcs : s.current_summary with _ | sum
      · simp [h]
      · simp only []
        split <;> simp [h, UserSession.add_content]
    rw [if_neg h4]
    by_cases h5 : action = "tags"
    · rw [if_pos h5]
      rcases het : env.getTags with names | m <;> simp [het, h]
    rw [if_neg h5]
    by_cases h6 : pyStartsWith action "tag_" = true
    · rw [if_pos h6]
      simp [h]
    rw [if_neg h6]
    by_cases h7 : action = "save_tags"
    · simp [h7, h]
    rw [if_neg h7]
    by_cases h8 : action = "parse"
    · rw [if_pos h8]
      rcases hl : s.contents.getLast? with _ | last <;>
        simp [hl, h, UserSession.add_content]
    rw [if_neg h8]
    by_cases h9 : action = "cancel"
    · simp [h9, UserSession.clear]
    rw [if_neg h9]
    by_cases h10 : action = "back"
    · rw [if_pos h10]
      simp [h]
    rw [if_neg h10]
    exact h
  · intro hst
    simp [handleCallback, hst, h, (by decide : pyStartsWith "back" "tag_" = false)]

/-- C5 witness: the amended theorem at the awaiting-action fixture,
under the `summarize` action. -/
theorem C5_last_state_never_set_witness :
    ((handleCallback sessionAwaiting "summarize" envAllOk).session).last_state = none ∧
    (sessionAwaiting.state ≠ .INITIAL →
      (handleCallback sessionAwaiting "back" envAllOk).session = sessionAwaiting ∧
      (handleCallback sessionAwaiting "back" envAllOk).output = .menu) :=
  C5_last_state_never_set sessionAwaiting "summarize" envAllOk rfl
